import Mathlib

/-
Verification of the Greeting Server in src/firstWebApp/main.go.

The program registers one handler on the root path pattern "/", which
writes the literal string "Hello, world whatsup" to the response writer
via fmt.Fprintf, prints "error : <err>" via fmt.Printf when the write
fails, and then unconditionally prints "Number of bytes written <n>"
via fmt.Println(fmt.Sprintf(...)).  main then calls
http.ListenAndServe(":8080", nil), discarding its error result.

The embedding below models the handler as a pure function of the
incoming request and of the outcome of the single response-stream
write, and models main as a function of the command line, environment,
bind outcome, and a finite prefix of the unbounded request stream.
-/

namespace FirstWebApp

/-- The literal response string written by the handler
(main.go line 15: fmt.Fprintf(w, "Hello, world whatsup")). -/
def responseString : String := "Hello, world whatsup"

/-- The listening address constant passed to ListenAndServe
(main.go line 23: http.ListenAndServe(":8080", nil)). -/
def listenAddr : String := ":8080"

/-- An incoming HTTP request, per the data the handler receives:
method, path, headers, body.  The handler in main.go never reads any
of these fields. -/
structure Request where
  method : String
  path : String
  headers : List (String × String)
  body : String
deriving DecidableEq

/-- Outcome of the single write to the response stream.  `ok` means the
write of the whole string succeeds; `fail k msg` means the write stops
after k bytes with error message msg (in Go, fmt.Fprintf then returns
n = k and a non-nil error whose %v rendering is msg). -/
inductive WriteOutcome where
  | ok : WriteOutcome
  | fail : Nat → String → WriteOutcome
deriving DecidableEq

/-- Model of n, err := fmt.Fprintf(w, s): the pair of the byte count
returned and the optional error message. -/
def fprintfResult (s : String) (o : WriteOutcome) : Nat × Option String :=
  match o with
  | .ok => (s.utf8ByteSize, none)
  | .fail k msg => (k, some msg)

/-- One message emitted to the process's standard output stream, with a
flag recording whether the emitting call appends a trailing newline
(fmt.Println does, fmt.Printf with this format string does not). -/
structure LogLine where
  text : String
  newlineTerminated : Bool
deriving DecidableEq

/-- The log message produced by
fmt.Println(fmt.Sprintf("Number of bytes written %d", n))
(main.go line 19). -/
def bytesWrittenLine (n : Nat) : LogLine :=
  { text := "Number of bytes written " ++ toString n, newlineTerminated := true }

/-- The log message produced by fmt.Printf("error : %v", err)
(main.go line 17). -/
def errorLine (msg : String) : LogLine :=
  { text := "error : " ++ msg, newlineTerminated := false }

/-- Everything one handler invocation does that is observable:
the string it passes to the response stream, the response bytes the
stream actually carries, and the messages printed to standard output,
in order. -/
structure HandlerTrace where
  attempted : String
  responseBody : String
  stdout : List LogLine
deriving DecidableEq

/-- The handler registered by http.HandleFunc("/", ...) in main.go
(lines 14-20), as a function of the request and of the write outcome:
  n, err := fmt.Fprintf(w, "Hello, world whatsup")
  if err != nil { fmt.Printf("error : %v", err) }
  fmt.Println(fmt.Sprintf("Number of bytes written %d", n))
The string is ASCII, so the byte prefix written before a failure is
the character prefix responseString.take k. -/
def handler (r : Request) (o : WriteOutcome) : HandlerTrace :=
  let res := fprintfResult responseString o
  let errLogs : List LogLine :=
    match res.2 with
    | some e => [errorLine e]
    | none => []
  { attempted := responseString
    responseBody :=
      match o with
      | .ok => responseString
      | .fail k _ => responseString.take k
    stdout := errLogs ++ [bytesWrittenLine res.1] }

/-- Outcome of the socket bind performed inside ListenAndServe. -/
inductive BindOutcome where
  | ok : BindOutcome
  | fail : String → BindOutcome
deriving DecidableEq

/-- What a run of the process produces: the address the listener was
asked to bind, the trace of every handler invocation in order, the
whole standard-output stream, and the exit code (none while the
process is still running). -/
structure ProcessTrace where
  addrUsed : String
  handled : List HandlerTrace
  stdout : List LogLine
  exitCode : Option Nat
deriving DecidableEq

/-- Serving a finite prefix of the request stream: each request is
handled by its own independent handler invocation. -/
def serveAll (reqs : List (Request × WriteOutcome)) : List HandlerTrace :=
  reqs.map fun p => handler p.1 p.2

/-- Model of main (main.go lines 9-24) as a function of the command
line, the environment, the bind outcome, and a finite prefix of the
unbounded request stream.  main reads neither args nor env.  If the
bind fails, ListenAndServe returns an error that main discards, main
returns, and the Go runtime exits the process with status 0 having
printed nothing; no handler ever ran.  If the bind succeeds,
ListenAndServe blocks forever serving requests, so the process has no
exit code of its own. -/
def goMain (args : List String) (env : List (String × String))
    (bind : BindOutcome) (reqs : List (Request × WriteOutcome)) : ProcessTrace :=
  match bind with
  | .fail _ =>
      { addrUsed := listenAddr, handled := [], stdout := [], exitCode := some 0 }
  | .ok =>
      let traces := serveAll reqs
      { addrUsed := listenAddr
        handled := traces
        stdout := (traces.map (fun t => t.stdout)).flatten
        exitCode := none }

/-- The spec's two-state machine: Starting, then Serving on bind
success or Terminated on bind failure; every handled request leaves
the server in Serving. -/
inductive ServerState where
  | Starting : ServerState
  | Serving : ServerState
  | Terminated : ServerState
deriving DecidableEq

/-- Events driving the state machine: the bind result, or one request
together with its write outcome. -/
inductive ServerEvent where
  | bindResult : BindOutcome → ServerEvent
  | request : Request → WriteOutcome → ServerEvent

/-- One transition of the server state machine. -/
def serverStep : ServerState → ServerEvent → ServerState
  | .Starting, .bindResult .ok => .Serving
  | .Starting, .bindResult (.fail _) => .Terminated
  | .Serving, .request _ _ => .Serving
  | s, _ => s

/-- Running the state machine over a sequence of events. -/
def runServer (s : ServerState) (evs : List ServerEvent) : ServerState :=
  evs.foldl serverStep s

/-- A concrete request used to evaluate the handler at specific
inputs. -/
def sampleReq : Request :=
  { method := "GET", path := "/", headers := [], body := "" }

/-- C1: for every HTTP request matching the root path pattern,
regardless of method, headers, or body, the handler passes exactly the
literal string "Hello, world whatsup" to the response stream, and
whenever the write succeeds that literal is the complete response
body. -/
theorem handler_writes_literal (r : Request) (o : WriteOutcome) :
    (handler r o).attempted = "Hello, world whatsup"
    ∧ (handler r .ok).responseBody = "Hello, world whatsup" := by
  cases o <;> exact ⟨rfl, rfl⟩

/-- C2 counterexample: on a successful write the handler logs
"Number of bytes written 20", because the literal response string is
20 bytes long, not 21. -/
theorem logged_count_not_21 :
    (handler sampleReq .ok).stdout = [bytesWrittenLine responseString.utf8ByteSize]
    ∧ responseString.utf8ByteSize = 20 ∧ responseString.utf8ByteSize ≠ 21 := by
  refine ⟨rfl, by decide, by decide⟩

/-- C2 (amended): on every successful write the logged byte count
equals the byte length of the literal response string, and that length
is 20 bytes. -/
theorem logged_count_eq_length (r : Request) :
    (handler r .ok).stdout = [bytesWrittenLine responseString.utf8ByteSize]
    ∧ responseString.utf8ByteSize = 20 := by
  exact ⟨rfl, by decide⟩

/-- C3 counterexample: on a failed write the byte-count line is still
emitted (there is no else branch or early return in the handler), so
the claim that it is emitted only on successful writes is false. -/
theorem count_line_on_failed_write :
    bytesWrittenLine 0 ∈ (handler sampleReq (.fail 0 "connection reset")).stdout := by
  decide

/-- C3 (amended): the error line "error : <details>" is emitted exactly
when the write fails, and the byte-count line "Number of bytes written
<n>" is emitted on every invocation — after the error line on failure,
alone on success — with n the count fmt.Fprintf returned. -/
theorem handler_log_lines (r : Request) (o : WriteOutcome) :
    (handler r o).stdout =
      match o with
      | .ok => [bytesWrittenLine responseString.utf8ByteSize]
      | .fail k msg => [errorLine msg, bytesWrittenLine k] := by
  cases o <;> rfl

/-- C4: a response-write failure is contained in its own invocation:
the run's trace splits as the unchanged traces of the earlier requests,
the failing invocation (whose first log message is the error line), and
the unchanged traces of the later requests; and any later request whose
write succeeds still receives the complete literal body. -/
theorem write_failure_contained (pre post : List (Request × WriteOutcome))
    (r r2 : Request) (k : Nat) (msg : String) :
    serveAll (pre ++ (r, .fail k msg) :: post)
      = serveAll pre ++ handler r (.fail k msg) :: serveAll post
    ∧ (handler r (.fail k msg)).stdout.head? = some (errorLine msg)
    ∧ (handler r2 .ok).responseBody = responseString := by
  refine ⟨?_, rfl, rfl⟩
  simp [serveAll]

/-- C5: if the bind fails at startup, no handler invocation ever
occurs, the process terminates (exit code recorded) without retrying,
and the state machine moves to Terminated and never leaves it. -/
theorem bind_failure_fatal (args : List String) (env : List (String × String))
    (msg : String) (reqs : List (Request × WriteOutcome)) (evs : List ServerEvent) :
    (goMain args env (.fail msg) reqs).handled = []
    ∧ (goMain args env (.fail msg) reqs).exitCode = some 0
    ∧ runServer .Starting (.bindResult (.fail msg) :: evs) = .Terminated := by
  refine ⟨rfl, rfl, ?_⟩
  show runServer .Terminated evs = .Terminated
  induction evs with
  | nil => rfl
  | cons e evs ih =>
      show runServer (serverStep .Terminated e) evs = .Terminated
      cases e with
      | bindResult b => cases b <;> exact ih
      | request r o => exact ih

/-- C6: the error returned by http.ListenAndServe is discarded: on any
bind failure main returns normally, so the process exits with status 0,
printing nothing and handling nothing. -/
theorem bind_error_discarded (args : List String) (env : List (String × String))
    (msg : String) (reqs : List (Request × WriteOutcome)) :
    goMain args env (.fail msg) reqs =
      { addrUsed := listenAddr, handled := [], stdout := [], exitCode := some 0 } := by
  rfl

/-- C7 counterexample: the write-failure message emitted by
fmt.Printf("error : %v", err) is not newline-terminated, so not every
log message is emitted as a newline-terminated line. -/
theorem error_message_no_newline :
    errorLine "connection reset" ∈
      (handler sampleReq (.fail 3 "connection reset")).stdout
    ∧ (errorLine "connection reset").newlineTerminated = false := by
  exact ⟨by decide, rfl⟩

/-- C7 (amended): every log message goes to the standard output
stream; the byte-count message is newline-terminated, while the
write-failure message has the form "error : <err>" but carries no
trailing newline. -/
theorem log_message_forms (r : Request) (k : Nat) (msg : String) :
    (handler r (.fail k msg)).stdout = [errorLine msg, bytesWrittenLine k]
    ∧ (errorLine msg).text = "error : " ++ msg
    ∧ (errorLine msg).newlineTerminated = false
    ∧ (bytesWrittenLine k).newlineTerminated = true := by
  exact ⟨rfl, rfl, rfl, rfl⟩

/-- C8: the listening address is the constant ":8080"; every run of
main, whatever the command line, environment, bind outcome, or request
stream, binds exactly that address. -/
theorem listen_address_fixed :
    listenAddr = ":8080"
    ∧ ∀ (args : List String) (env : List (String × String))
        (bind : BindOutcome) (reqs : List (Request × WriteOutcome)),
        (goMain args env bind reqs).addrUsed = ":8080" := by
  refine ⟨rfl, ?_⟩
  intro args env bind reqs
  cases bind <;> rfl

/-- C9: the handler never inspects the request: two invocations on
arbitrary distinct requests with the same write outcome produce
identical traces (response bytes and log output alike). -/
theorem handler_ignores_request (r1 r2 : Request) (o : WriteOutcome) :
    handler r1 o = handler r2 o := by
  rfl

/-- C10: once the bind succeeds the server is in Serving, and no
sequence of further events reaches a terminal state: the machine
serves an unbounded request stream and never leaves Serving by its own
action. -/
theorem serving_never_terminates (evs : List ServerEvent) :
    runServer .Starting (.bindResult .ok :: evs) = .Serving := by
  show runServer .Serving evs = .Serving
  induction evs with
  | nil => rfl
  | cons e evs ih =>
      show runServer (serverStep .Serving e) evs = .Serving
      cases e with
      | bindResult b => cases b <;> exact ih
      | request r o => exact ih

end FirstWebApp
